import Mathlib

/-!
# boatSearchResults: a shallow embedding of the Lightning web component

Source: `force-app/main/lwc/boatSearchResults/boatSearchResults.js`.

The component is modelled by explicit state passing.  A `World` holds the
fields of the component together with the chronological trace of every
observable action it performed (events dispatched, messages published,
remote calls issued, console output).  Each method and each promise handler
of the source is one function on `World`.  Asynchronous remote calls are
split at their suspension point: the part that runs up to the call being
issued, and the handler chain that runs once the call has settled with an
outcome supplied by the environment.  The handlers of one chain run one after
the other on the world; a remote call that never settles runs no handler.

Not modelled: the constant `columns` table and the listeners that the parent
attaches to the dispatched events.
-/

namespace BoatSearchResults

/-! ## JavaScript values -/

/-- JavaScript values, as far as the component inspects them.  Numbers are
integers here, no handler of the component computes with them. -/
inductive JSVal where
  | undefined
  | null
  | bool (b : Bool)
  | num (n : Int)
  | str (s : String)
  | arr (items : List JSVal)
  | obj (fields : List (String × JSVal))

/-- Truthiness as tested by `if (v)`: `undefined`, `null`, `false`, `0` and the
empty string are falsy, every array and every object is truthy. -/
def JSVal.truthy : JSVal → Bool
  | .undefined => false
  | .null => false
  | .bool b => b
  | .num n => n != 0
  | .str s => s != ""
  | .arr _ => true
  | .obj _ => true

/-- The value thrown by a property read on `undefined` or `null`. -/
def typeError : JSVal :=
  .obj [("name", .str "TypeError")]

/-- Property read `v.k` for the keys the component reads (`message`, `body`):
a `TypeError` is thrown on `undefined` and `null`, an object yields the stored
value or `undefined`, and primitives and arrays have no such property. -/
def JSVal.getProp (v : JSVal) (k : String) : Except JSVal JSVal :=
  match v with
  | .undefined => .error typeError
  | .null => .error typeError
  | .obj fields => .ok ((fields.lookup k).getD .undefined)
  | _ => .ok .undefined

/-! ## Component state and observable actions -/

/-- The result envelope handed to a wired function: `{ data, error }`. -/
structure WireResult where
  data : JSVal
  error : JSVal

/-- The `boats` field: declared without initialiser (`undefined`), set to
`null` on a failed fetch, or set to the whole wire result. -/
inductive Boats where
  | undefined
  | null
  | wired (result : WireResult)

/-- The argument of `new ShowToastEvent(...)`. -/
structure Toast where
  title : JSVal
  message : JSVal
  variant : JSVal

/-- The message published on the boat message channel. -/
structure BoatMessage where
  recordId : JSVal
  recordData : String

/-- Observable actions of the component, in the order they happen. -/
inductive Effect where
  /-- Source `this.dispatchEvent(new CustomEvent(name))`. -/
  | customEvent (name : String)
  /-- Source `this.dispatchEvent(new ShowToastEvent(t))`. -/
  | toast (t : Toast)
  /-- Source `publish(messageContext, channel, payload)`. -/
  | publish (messageContext : JSVal) (channel : String) (payload : BoatMessage)
  /-- Source `updateBoatList({data})`: the remote update call is issued. -/
  | updateBoatList (data : List JSVal)
  /-- Source `refreshApex(handle)`: the re-fetch is issued. -/
  | refreshApex (handle : Boats)
  /-- The wire issues the remote `getBoats({boatTypeId})` call. -/
  | getBoats (boatTypeId : String)
  /-- Source `console.log(label, ...)`. -/
  | log (label : String)

/-- The fields of the component and the trace of its observable actions. -/
structure World where
  boats : Boats
  draftValues : List JSVal
  isLoading : Bool
  selectedBoatId : JSVal
  boatTypeId : String
  error : JSVal
  messageContext : JSVal
  trace : List Effect

/-- A freshly constructed component: the field initialisers of the class. -/
def World.initial (messageContext : JSVal) : World :=
  { boats := .undefined
    draftValues := []
    isLoading := false
    selectedBoatId := .undefined
    boatTypeId := ""
    error := .undefined
    messageContext := messageContext
    trace := [] }

def LOADING_EVENT : String := "loading"
def DONE_LOADING_EVENT : String := "doneloading"

def SUCCESS_TITLE : String := "Success"
def MESSAGE_SHIP_IT : String := "Ship it!"
def SUCCESS_VARIANT : String := "success"
def ERROR_TITLE : String := "Error"
def ERROR_VARIANT : String := "error"

/-- The imported message channel `BoatMessageChannel__c`. -/
def BOATMC : String := "BoatMessageChannel__c"

/-- Append one observable action to the trace. -/
def emit (e : Effect) (w : World) : World :=
  { w with trace := w.trace ++ [e] }

/-! ## Synchronous methods -/

/-- Source `notifyLoading(isLoading)`. -/
def notifyLoading (isLoading : Bool) (w : World) : World :=
  let eventName := if isLoading then LOADING_EVENT else DONE_LOADING_EVENT
  emit (.customEvent eventName) w

/-- Source `showToastEvent(title, message, variant)`. -/
def showToastEvent (title message variant : JSVal) (w : World) : World :=
  emit (.toast { title := title, message := message, variant := variant }) w

/-- Source `wiredBoats(result)`. -/
def wiredBoats (result : WireResult) (w : World) : World :=
  let w := emit (.log "getBoats sResults") w
  let w :=
    if result.data.truthy then
      { w with boats := .wired result }
    else if result.error.truthy then
      let w := { w with error := result.error }
      { w with boats := .null }
    else
      w
  notifyLoading false w

/-- Source `searchBoats(boatTypeId)`. -/
def searchBoats (boatTypeId : String) (w : World) : World :=
  let w := { w with boatTypeId := boatTypeId }
  notifyLoading true w

/-- The `detail` of a tile selection event. -/
structure SelectDetail where
  boatId : JSVal

/-- A tile selection event, `{detail: {boatId}}`. -/
structure SelectEvent where
  detail : SelectDetail

/-- Source `sendMessageService(boatId)`. -/
def sendMessageService (boatId : JSVal) (w : World) : World :=
  emit (.publish w.messageContext BOATMC
    { recordId := boatId, recordData := "Current Boat Location" }) w

/-- Source `updateSelectedTile(event)`. -/
def updateSelectedTile (event : SelectEvent) (w : World) : World :=
  let w := { w with selectedBoatId := event.detail.boatId }
  sendMessageService w.selectedBoatId w

/-! ## Promises -/

/-- The settled state of a promise. -/
inductive Settled where
  | resolved (value : JSVal)
  | rejected (reason : JSVal)

/-- A promise handler: it runs on the world and either returns a value
(`.ok`) or throws (`.error`); the effects it had before throwing stay. -/
abbrev Handler := World → Except JSVal JSVal × World

/-- Settlement of `p.then(f)`: `f` runs when `p` resolved and its return or
throw settles the new promise; a rejection passes through. -/
def chainThen (f : JSVal → Handler) (p : Settled × World) : Settled × World :=
  match p with
  | (.resolved v, w) =>
    match f v w with
    | (.ok r, w1) => (.resolved r, w1)
    | (.error e, w1) => (.rejected e, w1)
  | (.rejected e, w) => (.rejected e, w)

/-- Settlement of `p.catch(g)`: `g` runs when `p` rejected and its return or
throw settles the new promise; a resolution passes through. -/
def chainCatch (g : JSVal → Handler) (p : Settled × World) : Settled × World :=
  match p with
  | (.resolved v, w) => (.resolved v, w)
  | (.rejected e, w) =>
    match g e w with
    | (.ok r, w1) => (.resolved r, w1)
    | (.error e1, w1) => (.rejected e1, w1)

/-- Settlement of `p.finally(h)`: `h` always runs; the new promise settles as
`p` did unless `h` throws. -/
def chainFinally (h : Handler) (p : Settled × World) : Settled × World :=
  match p with
  | (s, w) =>
    match h w with
    | (.ok _, w1) => (s, w1)
    | (.error e, w1) => (.rejected e, w1)

/-! ## refresh -/

/-- Source `refresh()`, up to its suspension point: `notifyLoading(true)` and
the call `refreshApex(this.boats)`. -/
def refreshIssue (w : World) : World :=
  let w := notifyLoading true w
  emit (.refreshApex w.boats) w

/-- The `.then` handler of `refresh`. -/
def refreshThen (_response : JSVal) : Handler := fun w =>
  (.ok .undefined, emit (.log "Refresh Apex") w)

/-- The `.catch` handler of `refresh`; reading `error.message` can throw. -/
def refreshCatch (error : JSVal) : Handler := fun w =>
  match error.getProp "message" with
  | .error e => (.error e, w)
  | .ok message =>
    (.ok .undefined, showToastEvent (.str "Error Refresh") message (.str "error") w)

/-- The `.finally` handler of `refresh`. -/
def refreshFinally : Handler := fun w =>
  (.ok .undefined, notifyLoading false w)

/-- The handler chain `.then(..).catch(..).finally(..)` of `refresh`, run once
`refreshApex` has settled with `outcome`. -/
def refreshSettle (outcome : Settled) (w : World) : Settled × World :=
  chainFinally refreshFinally
    (chainCatch refreshCatch
      (chainThen refreshThen (outcome, w)))

/-- One complete `refresh()` call whose re-fetch settles with `outcome`: the
promise returned by the async function and the world.  `await` rethrows a
rejection of the chain, otherwise the function returns `undefined`. -/
def refresh (outcome : Settled) (w : World) : Settled × World :=
  match refreshSettle outcome (refreshIssue w) with
  | (.resolved _, w1) => (.resolved .undefined, w1)
  | (.rejected e, w1) => (.rejected e, w1)

/-! ## handleSave -/

/-- The `detail` of a save event of the data table. -/
structure SaveDetail where
  draftValues : List JSVal

/-- A save event, `{detail: {draftValues}}`. -/
structure SaveEvent where
  detail : SaveDetail

/-- Source `handleSave(event)`, up to the remote call being issued. -/
def handleSaveIssue (event : SaveEvent) (w : World) : World :=
  let updatedFields := event.detail.draftValues
  emit (.updateBoatList updatedFields) w

/-- The `.then` handler of `handleSave`.  Each `this.refresh()` runs `refresh`
up to its suspension point; the promise it returns is dropped. -/
def handleSaveThen (_value : JSVal) : Handler := fun w =>
  let w := refreshIssue w
  let evt : Toast :=
    { title := .str SUCCESS_TITLE
      message := .str MESSAGE_SHIP_IT
      variant := .str SUCCESS_VARIANT }
  let w := { w with draftValues := [] }
  let w := emit (.toast evt) w
  let w := refreshIssue w
  (.ok .undefined, w)

/-- The `.catch` handler of `handleSave`; reading `error.body.message` can
throw, after the error has been stored. -/
def handleSaveCatch (error : JSVal) : Handler := fun w =>
  let w := { w with error := error }
  match error.getProp "body" with
  | .error e => (.error e, w)
  | .ok body =>
    match body.getProp "message" with
    | .error e => (.error e, w)
    | .ok message =>
      let evt : Toast :=
        { title := .str ERROR_TITLE
          message := message
          variant := .str ERROR_VARIANT }
      (.ok .undefined, emit (.toast evt) w)

/-- The `.finally` handler of `handleSave`. -/
def handleSaveFinally : Handler := fun w =>
  (.ok .undefined, { w with draftValues := [] })

/-- The handler chain of `handleSave`, run once `updateBoatList` has settled
with `outcome`. -/
def handleSaveSettle (outcome : Settled) (w : World) : Settled × World :=
  chainFinally handleSaveFinally
    (chainCatch handleSaveCatch
      (chainThen handleSaveThen (outcome, w)))

/-- One `handleSave(event)` invocation whose remote update call settles with
`outcome`: the world once the handlers of `handleSave` have run, and how the
chain settled.  A refresh it triggered is still suspended at that point. -/
def handleSave (event : SaveEvent) (outcome : Settled) (w : World) : Settled × World :=
  handleSaveSettle outcome (handleSaveIssue event w)

/-! ## The wire -/

/-- Modelled from the spec: the reactive subscription declared by
`@wire(getBoats, { boatTypeId: '$boatTypeId' })`, which belongs to the platform.
It re-executes the remote call whenever the filter value changes and hands the
settled result to `wiredBoats`.  `previous` is the filter value before the
assignment and `fetched` what the remote call settles with. -/
def wireOnFilterChange (previous : String) (fetched : WireResult) (w : World) : World :=
  if w.boatTypeId = previous then
    w
  else
    wiredBoats fetched (emit (.getBoats w.boatTypeId) w)

/-- One search cycle: `searchBoats(v)` followed by the reaction of the wire. -/
def searchBoatsCycle (v : String) (fetched : WireResult) (w : World) : World :=
  wireOnFilterChange w.boatTypeId fetched (searchBoats v w)

/-! ## Projections of a trace -/

/-- The names of the custom events in a trace, in order. -/
def customEventsOf : List Effect → List String
  | [] => []
  | .customEvent name :: rest => name :: customEventsOf rest
  | _ :: rest => customEventsOf rest

/-- The toasts in a trace, in order. -/
def toastsOf : List Effect → List Toast
  | [] => []
  | .toast t :: rest => t :: toastsOf rest
  | _ :: rest => toastsOf rest

/-- The handles of the re-fetches issued in a trace, in order. -/
def refetchesOf : List Effect → List Boats
  | [] => []
  | .refreshApex handle :: rest => handle :: refetchesOf rest
  | _ :: rest => refetchesOf rest

/-- The data of the remote update calls issued in a trace, in order. -/
def updateCallsOf : List Effect → List (List JSVal)
  | [] => []
  | .updateBoatList data :: rest => data :: updateCallsOf rest
  | _ :: rest => updateCallsOf rest

/-- The payloads published in a trace, in order. -/
def publishedOf : List Effect → List BoatMessage
  | [] => []
  | .publish _ _ payload :: rest => payload :: publishedOf rest
  | _ :: rest => publishedOf rest

/-- The toast `handleSave` shows on success. -/
def successToast : Toast :=
  { title := .str SUCCESS_TITLE
    message := .str MESSAGE_SHIP_IT
    variant := .str SUCCESS_VARIANT }

/-! ## Concrete inputs used by the closed theorems below -/

/-- The error detail `{message: 'timeout'}`. -/
def timeoutError : JSVal :=
  .obj [("message", .str "timeout")]

/-- A failed fetch, `{data: undefined, error: {message: 'timeout'}}`. -/
def failedFetch : WireResult :=
  { data := .undefined, error := timeoutError }

/-- A successful fetch of one boat record. -/
def loadedFetch : WireResult :=
  { data := .arr [.obj [("Id", .str "B-001"), ("Name", .str "Albatross")]]
    error := .undefined }

/-- The save failure `{body: {message: 'Bad field'}}`. -/
def badFieldError : JSVal :=
  .obj [("body", .obj [("message", .str "Bad field")])]

/-- A save event carrying one edited record. -/
def sampleSave : SaveEvent :=
  { detail := { draftValues := [.obj [("Id", .str "B-001"), ("Length__c", .num 12)]] } }

/-- A rejection of the re-fetch with `{message: 'offline'}`. -/
def offlineError : JSVal :=
  .obj [("message", .str "offline")]

/-- The toast `refresh` shows when the re-fetch fails with `offlineError`. -/
def offlineToast : Toast :=
  { title := .str "Error Refresh", message := .str "offline", variant := .str "error" }

/-! ## Basic facts -/

theorem chainFinally_handleSaveFinally (p : Settled × World) :
    chainFinally handleSaveFinally p = (p.1, { p.2 with draftValues := [] }) := by
  rcases p with ⟨s, w⟩
  rfl

theorem refreshSettle_draftValues (r : Settled) (w : World) :
    (refreshSettle r w).2.draftValues = w.draftValues := by
  cases r with
  | resolved v => rfl
  | rejected e =>
    simp only [refreshSettle, chainThen, chainCatch, refreshCatch]
    cases e.getProp "message" <;> rfl

theorem wiredBoats_trace (result : WireResult) (w : World) :
    (wiredBoats result w).trace
      = w.trace ++ [.log "getBoats sResults", .customEvent DONE_LOADING_EVENT] := by
  unfold wiredBoats
  by_cases hd : result.data.truthy = true
  · simp [hd, notifyLoading, emit]
  · by_cases he : result.error.truthy = true
    · simp [hd, he, notifyLoading, emit]
    · simp [hd, he, notifyLoading, emit]

theorem wiredBoats_boatTypeId (result : WireResult) (w : World) :
    (wiredBoats result w).boatTypeId = w.boatTypeId := by
  unfold wiredBoats
  by_cases hd : result.data.truthy = true
  · simp [hd, notifyLoading, emit]
  · by_cases he : result.error.truthy = true
    · simp [hd, he, notifyLoading, emit]
    · simp [hd, he, notifyLoading, emit]

/-- One search cycle run on its own: searchBoats(v) sets the filter to v and
emits one loading event; when v differs from the current filter the wire
fetches and wiredBoats ends the cycle with one doneloading, and when v equals
the current filter the wire adds nothing to the cycle. -/
theorem searchBoatsCycle_effects (v : String) (fetched : WireResult) (w : World) :
    (searchBoats v w).boatTypeId = v
    ∧ (searchBoats v w).trace = w.trace ++ [.customEvent LOADING_EVENT]
    ∧ (searchBoatsCycle v fetched w).boatTypeId = v
    ∧ (searchBoatsCycle v fetched w).trace
        = (searchBoats v w).trace ++
            (if v = w.boatTypeId then []
             else [.getBoats v, .log "getBoats sResults", .customEvent DONE_LOADING_EVENT])
    ∧ customEventsOf
          (if v = w.boatTypeId then []
           else [Effect.getBoats v, .log "getBoats sResults", .customEvent DONE_LOADING_EVENT])
        = (if v = w.boatTypeId then [] else [DONE_LOADING_EVENT]) := by
  refine ⟨rfl, rfl, ?_, ?_, ?_⟩
  · by_cases h : v = w.boatTypeId
    · simp [searchBoatsCycle, wireOnFilterChange, searchBoats, notifyLoading, emit, h]
    · simp [searchBoatsCycle, wireOnFilterChange, searchBoats, notifyLoading, emit, h,
        wiredBoats_boatTypeId]
  · by_cases h : v = w.boatTypeId
    · simp [searchBoatsCycle, wireOnFilterChange, searchBoats, notifyLoading, emit, h]
    · simp [searchBoatsCycle, wireOnFilterChange, searchBoats, notifyLoading, emit, h,
        wiredBoats_trace]
  · by_cases h : v = w.boatTypeId
    · simp [h, customEventsOf]
    · simp [h, customEventsOf]

/-! ## Claims -/

/-- C1: for every save event, every outcome of the remote update call and every
state, once the handlers of handleSave have run the draftValues list is empty,
and it stays empty when a refresh triggered by the save settles afterwards. -/
theorem C1_handleSave_clears_draftValues (event : SaveEvent) (outcome : Settled) (w : World) :
    (handleSave event outcome w).2.draftValues = []
    ∧ ∀ r : Settled, (refreshSettle r (handleSave event outcome w).2).2.draftValues = [] := by
  have h : (handleSave event outcome w).2.draftValues = [] := by
    simp [handleSave, handleSaveSettle, chainFinally_handleSaveFinally]
  exact ⟨h, fun r => by rw [refreshSettle_draftValues, h]⟩

/-- C2: for every state and every outcome of the re-fetch, one refresh() call
emits loading, then issues the re-fetch, and after it settled ends with
doneloading; what lies between holds no loading signal and no re-fetch, so the
loading signals of the call are exactly loading followed by doneloading. -/
theorem C2_refresh_loading_then_doneloading (outcome : Settled) (w : World) :
    (refreshIssue w).trace
        = w.trace ++ [.customEvent LOADING_EVENT, .refreshApex w.boats]
    ∧ ∃ mid : List Effect,
        (refresh outcome w).2.trace
            = (refreshIssue w).trace ++ (mid ++ [.customEvent DONE_LOADING_EVENT])
        ∧ customEventsOf mid = []
        ∧ refetchesOf mid = []
        ∧ customEventsOf ([.customEvent LOADING_EVENT, .refreshApex w.boats]
              ++ (mid ++ [.customEvent DONE_LOADING_EVENT]))
            = [LOADING_EVENT, DONE_LOADING_EVENT] := by
  refine ⟨by simp [refreshIssue, notifyLoading, emit], ?_⟩
  cases outcome with
  | resolved v =>
    exact ⟨[.log "Refresh Apex"], by
      simp [refresh, refreshSettle, chainThen, chainCatch, chainFinally, refreshThen,
        refreshFinally, notifyLoading, emit], rfl, rfl, rfl⟩
  | rejected e =>
    cases h : e.getProp "message" with
    | error t =>
      exact ⟨[], by
        simp [refresh, refreshSettle, chainThen, chainCatch, chainFinally, refreshCatch,
          refreshFinally, notifyLoading, emit, h], rfl, rfl, rfl⟩
    | ok m =>
      exact ⟨[.toast { title := .str "Error Refresh", message := m, variant := .str "error" }], by
        simp [refresh, refreshSettle, chainThen, chainCatch, chainFinally, refreshCatch,
          refreshFinally, showToastEvent, notifyLoading, emit, h], rfl, rfl, rfl⟩

/-- C9: when the re-fetch of a refresh() call fails with an error whose message
reads m, the call dispatches exactly one toast, titled Error Refresh with
message m and variant error, after loading and before doneloading, and its own
promise resolves; when the re-fetch succeeds the call dispatches no toast. -/
theorem C9_refresh_failure_toast (e m : JSVal) (w : World)
    (hm : e.getProp "message" = .ok m) :
    refresh (.rejected e) w
        = (.resolved .undefined,
            { w with trace := w.trace ++
                [.customEvent LOADING_EVENT, .refreshApex w.boats,
                 .toast { title := .str "Error Refresh", message := m, variant := .str "error" },
                 .customEvent DONE_LOADING_EVENT] })
    ∧ toastsOf [.customEvent LOADING_EVENT, .refreshApex w.boats,
          .toast { title := .str "Error Refresh", message := m, variant := .str "error" },
          .customEvent DONE_LOADING_EVENT]
        = [{ title := .str "Error Refresh", message := m, variant := .str "error" }]
    ∧ ∀ v : JSVal, ∃ new : List Effect,
        refresh (.resolved v) w = (.resolved .undefined, { w with trace := w.trace ++ new })
        ∧ toastsOf new = [] := by
  refine ⟨?_, rfl, fun v => ⟨[.customEvent LOADING_EVENT, .refreshApex w.boats,
    .log "Refresh Apex", .customEvent DONE_LOADING_EVENT], ?_, rfl⟩⟩
  · simp [refresh, refreshSettle, refreshIssue, chainThen, chainCatch, chainFinally,
      refreshCatch, refreshFinally, showToastEvent, notifyLoading, emit, hm]
  · simp [refresh, refreshSettle, refreshIssue, chainThen, chainCatch, chainFinally,
      refreshThen, refreshFinally, notifyLoading, emit]

/-- Witness of C9 at the rejection with message offline on a fresh component. -/
theorem C9_refresh_failure_toast_witness :
    offlineError.getProp "message" = .ok (.str "offline")
    ∧ refresh (.rejected offlineError) (World.initial .undefined)
        = (.resolved .undefined,
            { World.initial .undefined with trace :=
                [.customEvent LOADING_EVENT, .refreshApex .undefined,
                 .toast offlineToast, .customEvent DONE_LOADING_EVENT] }) :=
  ⟨rfl, (C9_refresh_failure_toast offlineError (.str "offline") (World.initial .undefined) rfl).1⟩

/-- C3: evaluation of wiredBoats at a fetch result carrying data, on the state
left by an earlier failed fetch: the boats hold the new result, and the error
of the earlier fetch is still stored, so data and error are both populated. -/
theorem C3_wiredBoats_data_keeps_stored_error :
    (wiredBoats failedFetch (World.initial .undefined)).error = timeoutError
    ∧ (wiredBoats loadedFetch (wiredBoats failedFetch (World.initial .undefined))).boats
        = .wired loadedFetch
    ∧ (wiredBoats loadedFetch (wiredBoats failedFetch (World.initial .undefined))).error
        = timeoutError
    ∧ timeoutError.truthy = true :=
  ⟨rfl, rfl, rfl, rfl⟩

/-- C4: for every fetch result whose data is absent (falsy) and whose error is
present (truthy, as every error object is) and for every prior state, after
wiredBoats the boats are null, the stored error is the error of the result,
exactly one doneloading event was emitted and no toast was dispatched. -/
theorem C4_wiredBoats_error_result (result : WireResult) (w : World)
    (hdata : result.data.truthy = false) (herror : result.error.truthy = true) :
    wiredBoats result w
        = { w with
              boats := .null
              error := result.error
              trace := w.trace ++
                [.log "getBoats sResults", .customEvent DONE_LOADING_EVENT] }
    ∧ customEventsOf [.log "getBoats sResults", .customEvent DONE_LOADING_EVENT]
        = [DONE_LOADING_EVENT]
    ∧ toastsOf [.log "getBoats sResults", .customEvent DONE_LOADING_EVENT] = [] := by
  refine ⟨?_, rfl, rfl⟩
  simp [wiredBoats, notifyLoading, emit, hdata, herror]

/-- Witness of C4 at the result with error timeout on a component that holds
an earlier successful result. -/
theorem C4_wiredBoats_error_result_witness :
    failedFetch.data.truthy = false
    ∧ failedFetch.error.truthy = true
    ∧ (wiredBoats failedFetch (wiredBoats loadedFetch (World.initial .undefined))).boats = .null
    ∧ (wiredBoats failedFetch (wiredBoats loadedFetch (World.initial .undefined))).error
        = timeoutError :=
  ⟨rfl, rfl,
   congrArg World.boats
     (C4_wiredBoats_error_result failedFetch
       (wiredBoats loadedFetch (World.initial .undefined)) rfl rfl).1,
   congrArg World.error
     (C4_wiredBoats_error_result failedFetch
       (wiredBoats loadedFetch (World.initial .undefined)) rfl rfl).1⟩

/-- C5: evaluation at a search for the boat type that is already the filter,
on a component whose earlier search for it has settled: the second searchBoats
call emits loading, the filter value does not change, the wire fetches nothing
and the cycle ends with that loading, no doneloading after it. -/
theorem C5_searchBoats_same_filter_no_doneloading :
    customEventsOf
        (searchBoatsCycle "a0B5" loadedFetch
          (searchBoatsCycle "a0B5" loadedFetch (World.initial .undefined))).trace
      = [LOADING_EVENT, DONE_LOADING_EVENT, LOADING_EVENT]
    ∧ (searchBoatsCycle "a0B5" loadedFetch
          (searchBoatsCycle "a0B5" loadedFetch (World.initial .undefined))).trace
      = (searchBoatsCycle "a0B5" loadedFetch (World.initial .undefined)).trace
          ++ [.customEvent LOADING_EVENT] :=
  ⟨by decide, rfl⟩

/-- C6: when the remote update call of handleSave fails with an error whose
body reads body and whose body message reads m, the component stores the
error, dispatches exactly one toast, titled Error with message m and variant
error, issues no re-fetch and emits no loading or doneloading event. -/
theorem C6_handleSave_failure (event : SaveEvent) (e body m : JSVal) (w : World)
    (hbody : e.getProp "body" = .ok body) (hm : body.getProp "message" = .ok m) :
    handleSave event (.rejected e) w
        = (.resolved .undefined,
            { w with
                error := e
                draftValues := []
                trace := w.trace ++
                  [.updateBoatList event.detail.draftValues,
                   .toast { title := .str ERROR_TITLE, message := m,
                            variant := .str ERROR_VARIANT }] })
    ∧ toastsOf [.updateBoatList event.detail.draftValues,
          .toast { title := .str ERROR_TITLE, message := m, variant := .str ERROR_VARIANT }]
        = [{ title := .str ERROR_TITLE, message := m, variant := .str ERROR_VARIANT }]
    ∧ refetchesOf [.updateBoatList event.detail.draftValues,
          .toast { title := .str ERROR_TITLE, message := m, variant := .str ERROR_VARIANT }]
        = []
    ∧ customEventsOf [.updateBoatList event.detail.draftValues,
          .toast { title := .str ERROR_TITLE, message := m, variant := .str ERROR_VARIANT }]
        = [] := by
  refine ⟨?_, rfl, rfl, rfl⟩
  simp [handleSave, handleSaveSettle, handleSaveIssue, chainThen, chainCatch, chainFinally,
    handleSaveCatch, handleSaveFinally, emit, hbody, hm]

/-- Witness of C6 at the failure with body message Bad field. -/
theorem C6_handleSave_failure_witness :
    badFieldError.getProp "body" = .ok (.obj [("message", .str "Bad field")])
    ∧ (JSVal.obj [("message", .str "Bad field")]).getProp "message" = .ok (.str "Bad field")
    ∧ handleSave sampleSave (.rejected badFieldError) (World.initial .undefined)
        = (.resolved .undefined,
            { World.initial .undefined with
                error := badFieldError
                trace :=
                  [.updateBoatList sampleSave.detail.draftValues,
                   .toast { title := .str "Error", message := .str "Bad field",
                            variant := .str "error" }] }) :=
  ⟨rfl, rfl,
   (C6_handleSave_failure sampleSave badFieldError (.obj [("message", .str "Bad field")])
      (.str "Bad field") (World.initial .undefined) rfl rfl).1⟩

/-- C7: when the remote update call succeeds, the handlers of handleSave
dispatch exactly one toast, the success toast with title Success, message
Ship it! and variant success, hence no error toast, and they trigger refresh
at least once: at least one loading event is emitted and at least one re-fetch
is issued. -/
theorem C7_handleSave_success (event : SaveEvent) (v : JSVal) (w : World) :
    ∃ new : List Effect,
      handleSave event (.resolved v) w
          = (.resolved .undefined, { w with draftValues := [], trace := w.trace ++ new })
      ∧ toastsOf new
          = [{ title := .str SUCCESS_TITLE
               message := .str MESSAGE_SHIP_IT
               variant := .str SUCCESS_VARIANT }]
      ∧ 1 ≤ (customEventsOf new).count LOADING_EVENT
      ∧ 1 ≤ (refetchesOf new).length := by
  refine ⟨[.updateBoatList event.detail.draftValues,
      .customEvent LOADING_EVENT, .refreshApex w.boats, .toast successToast,
      .customEvent LOADING_EVENT, .refreshApex w.boats], ?_, rfl, ?_, ?_⟩
  · simp [handleSave, handleSaveSettle, handleSaveIssue, chainThen, chainCatch, chainFinally,
      handleSaveThen, handleSaveFinally, refreshIssue, notifyLoading, emit, successToast]
  · simp [customEventsOf]
  · simp [refetchesOf]

/-- C8: for every selection event carrying boat identifier b and every state,
updateSelectedTile stores b in selectedBoatId, publishes exactly once, on the
boat message channel with recordId b and recordData Current Boat Location,
emits no loading or toast event and leaves boats, draftValues, error and the
filter unchanged. -/
theorem C8_updateSelectedTile (event : SelectEvent) (w : World) :
    updateSelectedTile event w
        = { w with
              selectedBoatId := event.detail.boatId
              trace := w.trace ++
                [.publish w.messageContext BOATMC
                  { recordId := event.detail.boatId, recordData := "Current Boat Location" }] }
    ∧ publishedOf [.publish w.messageContext BOATMC
          { recordId := event.detail.boatId, recordData := "Current Boat Location" }]
        = [{ recordId := event.detail.boatId, recordData := "Current Boat Location" }]
    ∧ customEventsOf [.publish w.messageContext BOATMC
          { recordId := event.detail.boatId, recordData := "Current Boat Location" }] = []
    ∧ toastsOf [.publish w.messageContext BOATMC
          { recordId := event.detail.boatId, recordData := "Current Boat Location" }] = []
    ∧ (updateSelectedTile event w).selectedBoatId = event.detail.boatId
    ∧ (updateSelectedTile event w).boats = w.boats
    ∧ (updateSelectedTile event w).draftValues = w.draftValues
    ∧ (updateSelectedTile event w).error = w.error
    ∧ (updateSelectedTile event w).boatTypeId = w.boatTypeId :=
  ⟨rfl, rfl, rfl, rfl, rfl, rfl, rfl, rfl, rfl⟩

/-- C10: for every save event with draft values d, every outcome and every
state, handleSave first issues the remote update call with data d, the state
being untouched at that point, and no other update call is issued by the
handlers that run afterwards. -/
theorem C10_handleSave_update_call_first (event : SaveEvent) (outcome : Settled) (w : World) :
    handleSaveIssue event w
        = { w with trace := w.trace ++ [.updateBoatList event.detail.draftValues] }
    ∧ ∃ rest : List Effect,
        (handleSave event outcome w).2.trace
            = w.trace ++ (.updateBoatList event.detail.draftValues :: rest)
        ∧ updateCallsOf rest = []
        ∧ updateCallsOf (.updateBoatList event.detail.draftValues :: rest)
            = [event.detail.draftValues] := by
  refine ⟨rfl, ?_⟩
  cases outcome with
  | resolved v =>
    exact ⟨[.customEvent LOADING_EVENT, .refreshApex w.boats, .toast successToast,
      .customEvent LOADING_EVENT, .refreshApex w.boats], by
      simp [handleSave, handleSaveSettle, handleSaveIssue, chainThen, chainCatch, chainFinally,
        handleSaveThen, handleSaveFinally, refreshIssue, notifyLoading, emit, successToast],
      rfl, rfl⟩
  | rejected e =>
    cases hb : e.getProp "body" with
    | error t =>
      exact ⟨[], by
        simp [handleSave, handleSaveSettle, handleSaveIssue, chainThen, chainCatch,
          chainFinally, handleSaveCatch, handleSaveFinally, emit, hb], rfl, rfl⟩
    | ok body =>
      cases hm : body.getProp "message" with
      | error t =>
        exact ⟨[], by
          simp [handleSave, handleSaveSettle, handleSaveIssue, chainThen, chainCatch,
            chainFinally, handleSaveCatch, handleSaveFinally, emit, hb, hm], rfl, rfl⟩
      | ok m =>
        exact ⟨[.toast ⟨.str ERROR_TITLE, m, .str ERROR_VARIANT⟩], by
          simp [handleSave, handleSaveSettle, handleSaveIssue, chainThen, chainCatch,
            chainFinally, handleSaveCatch, handleSaveFinally, emit, hb, hm], rfl, rfl⟩

end BoatSearchResults
